import Mathlib

set_option autoImplicit false

namespace IdpyOidc

/-! Shallow embedding of `idpyoidc/client/service.py` (class `Service`).

Python dictionaries are modelled as insertion-ordered association lists with
string keys (`aGet` reads the first matching entry, `aSet` replaces it in
place, `aUpdate` is `dict.update`).  Python values are modelled by `PyVal`,
with Python truthiness given by `truthy`.  External collaborators (the JOSE
layer, `json.loads`, the message schemas' `deserialize`/`verify`, the URL
helpers) are supplied as oracle functions bundled in environment structures;
everything the source file itself does is embedded as executable functions. -/

/-- A Python value as it flows through the service layer: a string, a dict
with string keys, a list, or `None`. -/
inductive PyVal where
  | str : String → PyVal
  | dict : List (String × PyVal) → PyVal
  | list : List PyVal → PyVal
  | noneV : PyVal

/-- A Python dict with string keys, as an insertion-ordered association list. -/
abbrev Dict := List (String × PyVal)

/-- Python truthiness of a `PyVal`: empty strings, empty containers and `None`
are falsy. -/
def truthy : PyVal → Bool
  | .str s => !s.isEmpty
  | .dict d => !d.isEmpty
  | .list l => !l.isEmpty
  | .noneV => false

/-- `isinstance(v, str)`. -/
def isStr : PyVal → Bool
  | .str _ => true
  | _ => false

/-- Truthiness of `d.get(k)`: `None` (absent) is falsy. -/
def truthyOpt : Option PyVal → Bool
  | some v => truthy v
  | none => false

/-- `d.get(k)` / `d[k]` on an association list: first matching entry wins. -/
def aGet {α : Type} : List (String × α) → String → Option α
  | [], _ => none
  | (k', v) :: rest, k => if k' = k then some v else aGet rest k

/-- `d[k] = v`: replace the entry in place if the key is present, append
otherwise. -/
def aSet {α : Type} : List (String × α) → String → α → List (String × α)
  | [], k, v => [(k, v)]
  | (k', v') :: rest, k, v =>
      if k' = k then (k, v) :: rest else (k', v') :: aSet rest k v

/-- `d.update(e)`. -/
def aUpdate {α : Type} (d e : List (String × α)) : List (String × α) :=
  e.foldl (fun acc kv => aSet acc kv.1 kv.2) d

/-! ### ParameterResolver: `Service.gather_request_args` (lines 133-175)
together with the `request_args` handling of `Service.__init__`
(lines 105-108). -/

/-- The per-service request-argument state relevant to `gather_request_args`:
whether `self.conf` still holds a `request_args` entry, and
`self.default_request_args`. -/
structure RequestArgsState where
  conf_request_args : Option Dict
  default_request_args : Dict

/-- Lines 105-108 of `Service.__init__`: a truthy configured `request_args`
is moved into `self.default_request_args` and deleted from `self.conf`; a
falsy one is left in place and the defaults stay empty.  The argument is
`conf.get("request_args")` (`none` when the key - or `conf` itself - is
absent). -/
def initRequestArgs : Option Dict → RequestArgsState
  | none => ⟨none, []⟩
  | some ra => if !ra.isEmpty then ⟨none, ra⟩ else ⟨some ra, []⟩

/-- Lines 145-147: `_use = _context.collect_usage()` with a fallback to
`_context.map_preferred_to_registered()` when the former is falsy. -/
def effectiveUse (collect_usage map_preferred : Dict) : Dict :=
  if !collect_usage.isEmpty then collect_usage else map_preferred

/-- Lines 162-166: `val = _use.get(prop)`, falling back to
`self.default_request_args.get(prop)` when that is falsy. -/
def usageOrDefault (use defaults : Dict) (prop : String) : Option PyVal :=
  match aGet use prop with
  | some v => if truthy v then some v else aGet defaults prop
  | none => aGet defaults prop

/-- One iteration of the loop at lines 158-169: skip properties already
present, otherwise resolve via `usageOrDefault` and store the value only when
it is truthy. -/
def gatherLoopStep (use defaults : Dict) (ar : Dict) (prop : String) : Dict :=
  match aGet ar prop with
  | some _ => ar
  | none =>
      match usageOrDefault use defaults prop with
      | some v => if truthy v then aSet ar prop v else ar
      | none => ar

/-- The loop at lines 158-169 over the message type's `c_param` field list. -/
def gatherLoop (use defaults : Dict) (ar : Dict) (c_param : List String) : Dict :=
  c_param.foldl (gatherLoopStep use defaults) ar

/-- Lines 171-173: inject every configured default whose key is still absent,
verbatim (no truthiness filter). -/
def defaultsPass (ar : Dict) (defaults : Dict) : Dict :=
  defaults.foldl
    (fun a kv =>
      match aGet a kv.1 with
      | some _ => a
      | none => aSet a kv.1 kv.2) ar

/-- `Service.gather_request_args` (lines 133-175): copy the keyword
arguments, update with `self.conf["request_args"]` when that key is present,
run the per-field loop over `c_param`, then the verbatim defaults pass. -/
def gather_request_args (st : RequestArgsState) (c_param : List String)
    (collect_usage map_preferred : Dict) (kwargs : Dict) : Dict :=
  let use := effectiveUse collect_usage map_preferred
  let ar :=
    match st.conf_request_args with
    | some ra => aUpdate kwargs ra
    | none => kwargs
  defaultsPass (gatherLoop use st.default_request_args ar c_param) st.default_request_args

/-- The value the per-field loop would store for a field: the resolved value
when it is truthy, nothing otherwise. -/
def loopVal (use defaults : Dict) (prop : String) : Option PyVal :=
  match usageOrDefault use defaults prop with
  | some v => if truthy v then some v else none
  | none => none

/-- Specification-side resolution order for one field, following the spec's
words (first match wins: call-time value, then a truthy negotiated/registered
usage value for a declared field, then the per-service default).  This is the
definition the source's `gather_request_args` is compared against. -/
def resolveFieldSpec (kwargs use defaults : Dict) (c_param : List String)
    (prop : String) : Option PyVal :=
  match aGet kwargs prop with
  | some v => some v
  | none =>
      if prop ∈ c_param ∧ truthyOpt (aGet use prop) = true then aGet use prop
      else aGet defaults prop

/-! ### AuthnDispatcher: `Service.init_authentication_method`
(lines 278-307). -/

/-- Error values raised by the embedded code paths. -/
inductive PyErr where
  | responseError : String → PyErr
  | valueError : String → PyErr
  | jsonError : PyErr
  | attributeError : PyErr
  | unsupported : String → PyErr
  deriving DecidableEq

/-- A client authentication strategy: its `construct(request=..., service=...,
http_args=...)` capability, modelled as a function from the request and the
HTTP arguments to the extended HTTP arguments. -/
structure AuthnMethod where
  construct : Dict → Dict → Dict

/-- `Service.init_authentication_method` (lines 278-307): with a falsy method
identifier return `http_args` unchanged; otherwise look the identifier up in
the (truthy) service-local registry first, then in the entity-wide registry
on the shared context, invoking the resolved strategy's `construct`; raise
`Unsupported` naming the identifier when both lookups fail. -/
def init_authentication_method (svcMethods ctxMethods : List (String × AuthnMethod))
    (request : Dict) (authn_method : String) (http_args : Option Dict) :
    Except PyErr Dict :=
  let ha := http_args.getD []
  if authn_method = "" then .ok ha
  else
    match (if svcMethods.isEmpty then none else aGet svcMethods authn_method) with
    | some f => .ok (f.construct request ha)
    | none =>
        match aGet ctxMethods authn_method with
        | some f => .ok (f.construct request ha)
        | none =>
            .error (.unsupported ("Unknown client authentication method: " ++ authn_method))

/-! ### RequestSerializer: the body/Content-Type selection of
`Service.get_request_parameters` (lines 407-476). -/

/-- Modelled from the spec: the form-encoding content-type constant
(`idpyoidc.constant.URL_ENCODED`, not part of the sources here). -/
def URL_ENCODED : String := "application/x-www-form-urlencoded"

/-- Modelled from the spec: the JSON content-type constant
(`idpyoidc.constant.JSON_ENCODED`, not part of the sources here). -/
def JSON_ENCODED : String := "application/json"

/-- Modelled from the spec: the JOSE content-type constant
(`idpyoidc.constant.JOSE_ENCODED`, not part of the sources here). -/
def JOSE_ENCODED : String := "application/jose"

/-- The per-service serialization defaults used at lines 430-435. -/
structure HttpSvc where
  http_method : String
  request_body_type : String

/-- The collaborator results `get_request_parameters` consumes: the headers
produced by `get_headers` (authentication plus extra-header hooks), the
resolved URL from `get_http_url`, and `get_http_body` as a function of the
selected content type. -/
structure HttpEnv where
  headers : Dict
  url : String
  body : String → String

/-- The `_info` dictionary returned by `get_request_parameters`. -/
structure HttpInfo where
  method : String
  url : String
  body : Option String
  headers : Option Dict

/-- Lines 461-467: content-type selection from the request body type. -/
def contentTypeFor (request_body_type : String) : String :=
  if request_body_type = "urlencoded" then URL_ENCODED
  else if request_body_type = "jws" ∨ request_body_type = "jwe" ∨ request_body_type = "jose" then
    JOSE_ENCODED
  else JSON_ENCODED

/-- The serialization tail of `Service.get_request_parameters` (lines
430-476): default the method and body type from the service attributes; on
`POST` select the content type, produce the body and set the `Content-Type`
header; otherwise produce no body and leave the headers untouched.  The
`headers` key is present only when the header dict is truthy. -/
def get_request_parameters (svc : HttpSvc) (env : HttpEnv)
    (method0 request_body_type0 : String) : HttpInfo :=
  let method := if method0 = "" then svc.http_method else method0
  let rbt := if request_body_type0 = "" then svc.request_body_type else request_body_type0
  if method = "POST" then
    let ct := contentTypeFor rbt
    let hs := aSet env.headers "Content-Type" (.str ct)
    { method := method, url := env.url, body := some (env.body ct),
      headers := if hs.isEmpty then none else some hs }
  else
    { method := method, url := env.url, body := none,
      headers := if env.headers.isEmpty then none else some env.headers }

/-- The `Content-Type` entry of the produced headers, if any. -/
def infoContentType (i : HttpInfo) : Option PyVal :=
  match i.headers with
  | some h => aGet h "Content-Type"
  | none => none

/-! ### ConstructionPipeline: `Service.do_pre_construct` (lines 193-212) and
the `behaviour_args` merge of `Service.construct` (lines 272-274). -/

/-- A pre-construction hook, per the hook contract: it is called with the
current request arguments and the shared `post_args` accumulator.  `args` is
the first component of the pair the hook returns (the new request arguments);
`shared` is the state of the shared accumulator dict after the call (the
hook's in-place mutations); `ret` is the second component of the returned
pair (`_post_args`), which `do_pre_construct` discards - the
`post_args.update(_post_args)` merge is commented out in the source. -/
structure PreHook where
  args : Dict → Dict → Dict
  shared : Dict → Dict → Dict
  ret : Dict → Dict → Dict

/-- The loop of `Service.do_pre_construct` (lines 205-210): thread the request
arguments and the shared accumulator through the hooks in order; each hook's
returned `_post_args` is discarded. -/
def preConstructFold : List PreHook → Dict → Dict → Dict × Dict
  | [], ra, pa => (ra, pa)
  | h :: hs, ra, pa => preConstructFold hs (h.args ra pa) (h.shared ra pa)

/-- `Service.do_pre_construct` (lines 193-212): the accumulator starts empty
and is returned after all hooks ran. -/
def do_pre_construct (hooks : List PreHook) (request_args : Dict) : Dict × Dict :=
  preConstructFold hooks request_args []

/-- The post-construction argument set `Service.construct` hands to the
post-construction hooks (lines 255 and 272-274): the accumulator returned by
`do_pre_construct`, updated with the call's `behaviour_args` when those are
truthy. -/
def construct_post_args (hooks : List PreHook) (request_args : Dict)
    (behaviour_args : Option Dict) : Dict :=
  let pa := (do_pre_construct hooks request_args).2
  match behaviour_args with
  | some b => if !b.isEmpty then aUpdate pa b else pa
  | none => pa

/-! ### ResponseDecoder / ResponseVerifier: `Service.parse_response`
(lines 569-684), `Service._do_response` (lines 543-567),
`Service.get_urlinfo` (lines 480-496).

The functions return an event trace alongside the result; `Ev.deserialize`
marks each schema-deserialization attempt (`self.response_cls().deserialize`)
with the format it was attempted under, and `Ev.verify` marks the invocation
of the parsed message's `verify` capability. -/

/-- Observable events of the response pipeline. -/
inductive Ev where
  | deserialize : String → Ev
  | verify : Ev
  deriving DecidableEq

/-- A parse result: a schema message (claims plus the preserved raw compact
strings `_jws`/`_jwe`), or a raw passthrough value (text format, or a
list payload). -/
inductive Resp where
  | msg : Dict → Option PyVal → Option PyVal → Resp
  | raw : PyVal → Resp

/-- Python truthiness of a parse result. -/
def respTruthy : Resp → Bool
  | .msg claims _ _ => !claims.isEmpty
  | .raw v => truthy v

/-- Modelled from the spec: a decoded response is "recognized as
error-shaped" when it carries an `error` member
(`idpyoidc.message.oauth2.is_error_message`, not part of the sources here;
`in` on a message checks its claims, on a list its elements). -/
def is_error_message : Resp → Bool
  | .msg claims _ _ => (aGet claims "error").isSome
  | .raw (.list l) => l.any (fun v => match v with | .str s => s = "error" | _ => false)
  | .raw _ => false

/-- The external collaborators of the response pipeline: `json.loads`, the
`cryptojwt` JWS/JWE factories (probes that may raise), `Service._do_jwt`
(whose body is a `cryptojwt.JWT.unpack` call), the response class's
`from_jwe` and `deserialize` capabilities, the message's `verify`
capability, and `urllib.parse.urlparse`'s query/fragment parts. -/
structure ParseEnv where
  jsonLoads : PyVal → Except PyErr PyVal
  jwsFactory : PyVal → Except PyErr Bool
  jweFactory : PyVal → Except PyErr Bool
  doJwt : PyVal → Except PyErr PyVal
  fromJwe : PyVal → Except PyErr Dict
  deserialize : PyVal → String → Except PyErr Dict
  verify : Dict → Except PyErr Unit
  urlQuery : String → String
  urlFragment : String → String

/-- The per-service attributes `parse_response` reads: the default response
body type and whether `self.response_cls` is the builtin `list`. -/
structure ParseSvc where
  response_body_type : String
  responseClsIsList : Bool

/-- `Service.get_urlinfo` (lines 480-496): when the payload looks like a full
URL, pick out its query part, or failing that its fragment part. -/
def get_urlinfo (env : ParseEnv) (info : PyVal) : PyVal :=
  match info with
  | .str s =>
      if s.contains '?' || s.contains '#' then
        if !(env.urlQuery s).isEmpty then .str (env.urlQuery s) else .str (env.urlFragment s)
      else .str s
  | v => v

/-- The inner try of the `jose` branch (lines 610-614): probe with the JWE
factory and unwrap on success; any exception leaves the payload unchanged. -/
def joseJweProbe (env : ParseEnv) (info : PyVal) : PyVal :=
  match env.jweFactory info with
  | .ok true =>
      match env.doJwt info with
      | .ok v => v
      | .error _ => info
  | _ => info

/-- The probe cascade of the `jose` branch (lines 606-614): try the JWS
factory and unwrap on success; on any exception fall back to the JWE probe;
a falsy factory result leaves the payload unchanged without probing JWE. -/
def joseDecode (env : ParseEnv) (info : PyVal) : PyVal :=
  match env.jwsFactory info with
  | .ok true =>
      match env.doJwt info with
      | .ok v => v
      | .error _ => joseJweProbe env info
  | .ok false => info
  | .error _ => joseJweProbe env info

/-- The format dispatch of `parse_response` (lines 596-633).  Returns the
rewritten format, the decoded payload, the preserved `_jws` and `_jwe`
values, and the response already built by the `jwe` branch, or the
propagated exception. -/
def decodePhase (env : ParseEnv) (svc : ParseSvc) (info0 : PyVal) (sformat0 : String) :
    Except PyErr (String × PyVal × Option PyVal × Option PyVal × Option Resp) :=
  let sformat := if sformat0 = "" then svc.response_body_type else sformat0
  if sformat = "jose" then
    let info1 := joseDecode env info0
    match (if truthy info1 && isStr info1 then env.jsonLoads info1 else .ok info1) with
    | .ok info2 => .ok ("dict", info2, some info0, none, none)
    | .error e => .error e
  else if sformat = "jwe" then
    match env.fromJwe info0 with
    | .ok claims => .ok (sformat, info0, none, some info0, some (.msg claims none none))
    | .error e => .error e
  else if sformat = "urlencoded" then
    .ok (sformat, get_urlinfo env info0, none, none, none)
  else if sformat = "jwt" ∨ sformat = "jws" then
    match env.doJwt info0 with
    | .ok v => .ok ("dict", v, some info0, none, none)
    | .error e => .error e
  else if sformat = "json" then
    match env.jsonLoads info0 with
    | .ok v => .ok ("dict", v, none, none, none)
    | .error e => .error e
  else
    .ok (sformat, info0, none, none, none)

/-- One schema-deserialization call `self.response_cls().deserialize(...)`:
when the response class is the builtin `list`, instantiating it yields no
`deserialize` attribute and the call raises. -/
def deserializeCall (env : ParseEnv) (svc : ParseSvc) (info : PyVal) (sformat : String) :
    Except PyErr Dict :=
  if svc.responseClsIsList then .error .attributeError else env.deserialize info sformat

/-- The try/except block of `Service._do_response` (lines 549-567):
deserialize into the response schema; on failure retry once as `jwt` when
this call's format is `json` (re-raising the retry's error), and otherwise
raise a `ValueError` naming the format. -/
def do_response_try (env : ParseEnv) (svc : ParseSvc) (info : PyVal) (sformat : String) :
    List Ev × Except PyErr Resp :=
  match deserializeCall env svc info sformat with
  | .ok claims => ([.deserialize sformat], .ok (.msg claims none none))
  | .error _ =>
      if sformat = "json" then
        match deserializeCall env svc info "jwt" with
        | .ok claims => ([.deserialize sformat, .deserialize "jwt"], .ok (.msg claims none none))
        | .error e2 => ([.deserialize sformat, .deserialize "jwt"], .error e2)
      else
        ([.deserialize sformat], .error (.valueError ("Incorrect message type: " ++ sformat)))

/-- `Service._do_response` (lines 543-567): a list payload is returned as is
(line 546), everything else goes through the try/except block. -/
def do_response (env : ParseEnv) (svc : ParseSvc) (info : PyVal) (sformat : String) :
    List Ev × Except PyErr Resp :=
  match info with
  | .list l => ([], .ok (.raw (.list l)))
  | v => do_response_try env svc v sformat

/-- Outcome of the `resp is None` block (lines 637-651): either an early
return of the payload (the list-typed-schema case at line 639) or a response
to hand to the verification stage. -/
inductive Stage2 where
  | finished : PyVal → Stage2
  | proceed : Resp → Stage2

/-- Lines 640-651 for a payload that is not the empty list: raise on a falsy
payload; pass text through; otherwise run `_do_response`. -/
def respNoneBody (env : ParseEnv) (svc : ParseSvc) (sformat : String) (info : PyVal) :
    List Ev × Except PyErr Stage2 :=
  if !truthy info then ([], .error (.responseError "Missing or faulty response"))
  else if sformat = "text" then ([], .ok (.proceed (.raw info)))
  else
    match do_response env svc info sformat with
    | (t, .ok r) => (t, .ok (.proceed r))
    | (t, .error e) => (t, .error e)

/-- The `resp is None` block (lines 637-651): return an empty list payload as
is when the schema is list-typed (line 639), otherwise lines 640-651. -/
def respNonePhase (env : ParseEnv) (svc : ParseSvc) (sformat : String) (info : PyVal) :
    List Ev × Except PyErr Stage2 :=
  match info with
  | .list [] =>
      if svc.responseClsIsList then ([], .ok (.finished (.list [])))
      else ([], .error (.responseError "Missing or faulty response"))
  | v => respNoneBody env svc sformat v

/-- The initial response of `parse_response`: the one built by the `jwe`
branch when present, else the `resp is None` block. -/
def initialResp (env : ParseEnv) (svc : ParseSvc) (sformat : String) (info : PyVal)
    (resp0 : Option Resp) : List Ev × Except PyErr Stage2 :=
  match resp0 with
  | some r => ([], .ok (.proceed r))
  | none => respNonePhase env svc sformat info

/-- Lines 673-676: attach the preserved raw compact string to the verified
message - `_jws` when truthy, else `_jwe` when truthy. -/
def attachTokens (claims : Dict) (jws jwe : Option PyVal) : Resp :=
  if truthyOpt jws then .msg claims jws none
  else if truthyOpt jwe then .msg claims none jwe
  else .msg claims none none

/-- Lines 680-684: a falsy response is a terminal failure. -/
def finalCheck (t : List Ev) (r : Resp) : List Ev × Except PyErr Resp :=
  if respTruthy r then (t, .ok r) else (t, .error (.responseError "Missing or faulty response"))

/-- The verification stage (lines 653-684): skipped for the text format and
for error-shaped responses (only logged) and for results that are not
messages; otherwise the message's `verify` capability runs (its exceptions
are logged and re-raised), the raw compact string is attached, and the
post-parse hook runs (the base class's `post_parse_response` is the
identity, lines 498-507).  A falsy final response raises. -/
def verifyPhase (env : ParseEnv) (sformat : String) (jws jwe : Option PyVal)
    (t : List Ev) (r : Resp) : List Ev × Except PyErr Resp :=
  if sformat = "text" then finalCheck t r
  else if is_error_message r then finalCheck t r
  else
    match r with
    | .msg claims _ _ =>
        match env.verify claims with
        | .error e => (t ++ [.verify], .error e)
        | .ok _ => finalCheck (t ++ [.verify]) (attachTokens claims jws jwe)
    | .raw v => finalCheck t (.raw v)

/-- `Service.parse_response` (lines 569-684): decode by format, build the
initial response, then run the verification stage. -/
def parse_response (env : ParseEnv) (svc : ParseSvc) (info0 : PyVal) (sformat0 : String) :
    List Ev × Except PyErr Resp :=
  match decodePhase env svc info0 sformat0 with
  | .error e => ([], .error e)
  | .ok (sformat, info, jws, jwe, resp0) =>
      match initialResp env svc sformat info resp0 with
      | (t, .error e) => (t, .error e)
      | (t, .ok (.finished v)) => (t, .ok (.raw v))
      | (t, .ok (.proceed r)) => verifyPhase env sformat jws jwe t r

/-! ### Concrete fixtures used by the closed evaluations below. -/

/-- Modelled from the spec: Python's `json.loads` (standard library, outside
this repository) on the concrete payloads used below - the empty string is
not a valid JSON document and raises, `"[]"` is the empty array, `"null"` is
`None`; other payloads used here are not valid JSON either. -/
def jsonLoadsModel : PyVal → Except PyErr PyVal
  | .str "[]" => .ok (.list [])
  | .str "null" => .ok .noneV
  | _ => .error .jsonError

/-- A concrete environment: faithful `json.loads` model, no JOSE structure
detected anywhere, schemas that reject everything. -/
def baseEnv : ParseEnv where
  jsonLoads := jsonLoadsModel
  jwsFactory := fun _ => .ok false
  jweFactory := fun _ => .ok false
  doJwt := fun _ => .error (.valueError "no key")
  fromJwe := fun _ => .error (.valueError "no key")
  deserialize := fun _ _ => .error (.valueError "schema rejects")
  verify := fun _ => .ok ()
  urlQuery := fun _ => ""
  urlFragment := fun _ => ""

/-- An environment whose provider answers every JSON payload with an
error-shaped document, and whose schema deserializes any dict into its own
entries. -/
def errorShapedEnv : ParseEnv :=
  { baseEnv with
    jsonLoads := fun _ => .ok (.dict [("error", .str "access_denied")])
    deserialize := fun info _ =>
      match info with
      | .dict d => .ok d
      | _ => .error (.valueError "schema rejects") }

/-- An environment where a payload declared `json` parses as a JSON document
whose content the response schema rejects. -/
def mistaggedEnv : ParseEnv :=
  { baseEnv with jsonLoads := fun _ => .ok (.dict [("a", .str "b")]) }

/-- An environment where every payload probes as a compact JWS and unwraps to
a fixed claims dict, which the schema then accepts. -/
def jwsEnv : ParseEnv :=
  { baseEnv with
    jwsFactory := fun _ => .ok true
    doJwt := fun _ => .ok (.dict [("sub", .str "x")])
    deserialize := fun info _ =>
      match info with
      | .dict d => .ok d
      | _ => .error (.valueError "schema rejects") }

/-- A service-local authentication strategy distinguishable by its output. -/
def amLocal : AuthnMethod := ⟨fun _ ha => aSet ha "auth" (.str "service-local")⟩

/-- An entity-wide authentication strategy distinguishable by its output. -/
def amShared : AuthnMethod := ⟨fun _ ha => aSet ha "auth" (.str "entity-wide")⟩

/-- Serializer fixtures: a GET-defaulting service and an empty upstream
header set. -/
def httpSvcFix : HttpSvc := ⟨"GET", "urlencoded"⟩

/-- Upstream collaborator results for the serializer: no headers, a fixed
URL, and a body tagging the content type it was serialized under. -/
def httpEnvFix : HttpEnv := ⟨[], "https://op.example.org/token", fun ct => "body-as:" ++ ct⟩

/-- A pre-construction hook that leaves everything alone but returns a
`post_args` contribution. -/
def hookRetA : PreHook := ⟨fun ra _ => ra, fun _ pa => pa, fun _ _ => [("a", .str "1")]⟩

/-- A second such hook with a different returned contribution. -/
def hookRetB : PreHook := ⟨fun ra _ => ra, fun _ pa => pa, fun _ _ => [("b", .str "2")]⟩

/-- `hookRetA` with its returned contribution changed and nothing else. -/
def hookRetA2 : PreHook := ⟨fun ra _ => ra, fun _ pa => pa, fun _ _ => [("z", .str "9")]⟩

/-! ### Association-list lemmas. -/

theorem aGet_aSet {α : Type} (d : List (String × α)) (k : String) (v : α) (k' : String) :
    aGet (aSet d k v) k' = if k = k' then some v else aGet d k' := by
  induction d with
  | nil => simp [aSet, aGet]
  | cons hd tl ih =>
    obtain ⟨k0, v0⟩ := hd
    by_cases h0 : k0 = k
    · subst h0
      by_cases h : k0 = k'
      · simp [aSet, aGet, h]
      · simp [aSet, aGet, h]
    · by_cases h1 : k0 = k'
      · have hk : ¬k = k' := fun he => h0 (by rw [he, h1])
        have hk' : ¬k' = k := fun he => hk he.symm
        simp [aSet, aGet, h0, h1, hk, hk']
      · simp [aSet, aGet, h0, h1, ih]

theorem aGet_isEmpty {α : Type} {l : List (String × α)} {k : String} {f : α}
    (h : aGet l k = some f) : l.isEmpty = false := by
  cases l with
  | nil => simp [aGet] at h
  | cons hd tl => rfl

theorem aSet_isEmpty {α : Type} (d : List (String × α)) (k : String) (v : α) :
    (aSet d k v).isEmpty = false := by
  cases d with
  | nil => rfl
  | cons hd tl =>
    obtain ⟨k0, v0⟩ := hd
    by_cases h : k0 = k <;> simp [aSet, h]

/-! ### ParameterResolver lemmas: a per-field characterization of
`gather_request_args`. -/

theorem aGet_defaultsPass (defaults : Dict) : ∀ (ar : Dict) (k : String),
    aGet (defaultsPass ar defaults) k =
      match aGet ar k with
      | some v => some v
      | none => aGet defaults k := by
  induction defaults with
  | nil =>
    intro ar k
    show aGet ar k = _
    cases aGet ar k <;> simp [aGet]
  | cons hd tl ih =>
    intro ar k
    obtain ⟨k0, v0⟩ := hd
    show aGet (defaultsPass
        (match aGet ar k0 with
         | some _ => ar
         | none => aSet ar k0 v0) tl) k = _
    rw [ih]
    cases h0 : aGet ar k0 with
    | some w =>
      cases h : aGet ar k with
      | some v => simp [h]
      | none =>
        have hk : ¬k0 = k := fun he => by rw [he] at h0; rw [h0] at h; cases h
        simp [h, aGet, hk]
    | none =>
      simp only [aGet_aSet]
      by_cases hk : k0 = k
      · subst hk
        simp [h0, aGet]
      · simp only [if_neg hk]
        cases h : aGet ar k with
        | some v => simp [h]
        | none => simp [h, aGet, hk]

theorem gatherLoopStep_eq (use defaults : Dict) (ar : Dict) (p : String) :
    gatherLoopStep use defaults ar p =
      match aGet ar p, loopVal use defaults p with
      | none, some v => aSet ar p v
      | _, _ => ar := by
  unfold gatherLoopStep loopVal
  cases h : aGet ar p with
  | some w => simp [h]
  | none =>
    simp only [h]
    cases h1 : usageOrDefault use defaults p with
    | none => simp
    | some v => by_cases ht : truthy v <;> simp [ht]

theorem aGet_gatherLoop (use defaults : Dict) (c_param : List String) :
    ∀ (ar : Dict) (k : String),
    aGet (gatherLoop use defaults ar c_param) k =
      match aGet ar k with
      | some v => some v
      | none => if k ∈ c_param then loopVal use defaults k else none := by
  induction c_param with
  | nil =>
    intro ar k
    show aGet ar k = _
    cases aGet ar k <;> simp
  | cons p rest ih =>
    intro ar k
    show aGet (gatherLoop use defaults (gatherLoopStep use defaults ar p) rest) k = _
    rw [ih, gatherLoopStep_eq]
    by_cases hkp : k = p
    · subst hkp
      cases hp : aGet ar k with
      | some w => simp [hp]
      | none =>
        cases hl : loopVal use defaults k with
        | none => simp [hp, hl]
        | some v => simp [hp, hl, aGet_aSet]
    · have hne : ¬p = k := fun he => hkp he.symm
      cases hp : aGet ar p with
      | some w =>
        simp only [hp]
        cases h : aGet ar k with
        | some v => simp [h]
        | none => simp [h, List.mem_cons, hkp]
      | none =>
        cases hl : loopVal use defaults p with
        | none =>
          simp only [hp, hl]
          cases h : aGet ar k with
          | some v => simp [h]
          | none => simp [h, List.mem_cons, hkp]
        | some v =>
          simp only [hp, hl, aGet_aSet, if_neg hne]
          cases h : aGet ar k with
          | some w => simp [h]
          | none => simp [h, List.mem_cons, hkp]

theorem loopVal_truthy {use defaults : Dict} {k : String} {v : PyVal}
    (h : loopVal use defaults k = some v) : truthy v = true := by
  unfold loopVal at h
  cases h0 : usageOrDefault use defaults k with
  | none => rw [h0] at h; cases h
  | some w =>
    rw [h0] at h
    by_cases ht : truthy w
    · simp only [ht, if_true, Option.some.injEq] at h
      rw [← h]; exact ht
    · simp [ht] at h

theorem gather_request_args_get (st : RequestArgsState)
    (hconf : st.conf_request_args = none ∨ st.conf_request_args = some [])
    (c_param : List String) (cu mp kwargs : Dict) (k : String) :
    aGet (gather_request_args st c_param cu mp kwargs) k =
      resolveFieldSpec kwargs (effectiveUse cu mp) st.default_request_args c_param k := by
  have har : (match st.conf_request_args with
              | some ra => aUpdate kwargs ra
              | none => kwargs) = kwargs := by
    rcases hconf with h | h <;> simp [h, aUpdate]
  show aGet (defaultsPass
      (gatherLoop (effectiveUse cu mp) st.default_request_args
        (match st.conf_request_args with
         | some ra => aUpdate kwargs ra
         | none => kwargs) c_param)
      st.default_request_args) k = _
  rw [har, aGet_defaultsPass, aGet_gatherLoop]
  unfold resolveFieldSpec
  cases hk : aGet kwargs k with
  | some v => simp [hk]
  | none =>
    simp only [hk]
    by_cases hmem : k ∈ c_param
    · simp only [hmem, if_true]
      cases hu : aGet (effectiveUse cu mp) k with
      | none =>
        simp only [truthyOpt, hu]
        unfold loopVal usageOrDefault
        rw [hu]
        cases hd : aGet st.default_request_args k with
        | none => simp [hd]
        | some d => by_cases ht : truthy d <;> simp [hd, ht]
      | some w =>
        by_cases ht : truthy w
        · have : loopVal (effectiveUse cu mp) st.default_request_args k = some w := by
            unfold loopVal usageOrDefault
            rw [hu]
            simp [ht]
          simp [this, truthyOpt, hu, ht, hmem]
        · have hval : loopVal (effectiveUse cu mp) st.default_request_args k =
              (match aGet st.default_request_args k with
               | some d => if truthy d then some d else none
               | none => none) := by
            unfold loopVal usageOrDefault
            rw [hu]
            simp [ht]
          simp only [truthyOpt, hu, ht, hval]
          cases hd : aGet st.default_request_args k with
          | none => simp [hd]
          | some d => by_cases htd : truthy d <;> simp [hd, htd, hmem]
    · simp [hmem, truthyOpt]

/-! ### Claims C1 and C10 - field resolution in `gather_request_args`. -/

/-- C1 (amended): for a service initialised from a configuration, every field
of the `gather_request_args` result resolves as: the explicitly passed
call-time value always wins (it is never replaced by configured
`request_args` - which `__init__` turned into the per-service defaults -, by
a negotiated/registered usage value, or by a per-service default); otherwise
a declared field takes a *truthy* negotiated/registered usage value; in every
remaining case the per-service configured default (or absence) is used - so a
default is placed only when no call-time value exists and no truthy usage
value exists, a falsy usage value being treated as absent. -/
theorem c1_gather_resolution (conf0 : Option Dict) (c_param : List String)
    (cu mp kwargs : Dict) (k : String) :
    aGet (gather_request_args (initRequestArgs conf0) c_param cu mp kwargs) k =
      resolveFieldSpec kwargs (effectiveUse cu mp)
        (initRequestArgs conf0).default_request_args c_param k := by
  apply gather_request_args_get
  cases conf0 with
  | none => exact Or.inl rfl
  | some ra =>
    cases ra with
    | nil => exact Or.inr rfl
    | cons hd tl => exact Or.inl rfl

/-- C1 counterexample: the claim as stated is false - with no call-time value
for the declared field `scope`, a negotiated/registered usage value for
`scope` exists (the empty string), and yet the per-service default `openid`
is placed in the result. -/
theorem c1_counterexample :
    aGet [("scope", PyVal.str "")] "scope" = some (PyVal.str "") ∧
    aGet ([] : Dict) "scope" = none ∧
    aGet (gather_request_args (initRequestArgs (some [("scope", PyVal.str "openid")]))
        ["scope"] [("scope", PyVal.str "")] [] []) "scope" = some (PyVal.str "openid") :=
  ⟨rfl, rfl, rfl⟩

/-- C10: in `gather_request_args`, (i) a falsy usage value for a declared
field is treated as absent and resolution falls through to the per-service
default; (ii) the per-field loop never places a falsy value; (iii) the final
verbatim pass injects a configured default absent from the result even when
that default is falsy. -/
theorem c10_falsy_handling :
    (∀ (st : RequestArgsState) (c_param : List String) (cu mp kwargs : Dict)
        (k : String) (v : PyVal),
        st.conf_request_args = none → aGet kwargs k = none →
        aGet (effectiveUse cu mp) k = some v → truthy v = false →
        aGet (gather_request_args st c_param cu mp kwargs) k
          = aGet st.default_request_args k) ∧
    (∀ (use defaults ar : Dict) (l : List String) (k : String) (v : PyVal),
        aGet ar k = none → aGet (gatherLoop use defaults ar l) k = some v →
        truthy v = true) ∧
    (∀ (ar defaults : Dict) (k : String) (v : PyVal),
        aGet ar k = none → aGet defaults k = some v →
        aGet (defaultsPass ar defaults) k = some v) := by
  refine ⟨?_, ?_, ?_⟩
  · intro st c_param cu mp kwargs k v hconf hkw hu ht
    rw [gather_request_args_get st (Or.inl hconf)]
    simp [resolveFieldSpec, hkw, hu, truthyOpt, ht]
  · intro use defaults ar l k v har h
    rw [aGet_gatherLoop] at h
    rw [har] at h
    by_cases hm : k ∈ l
    · rw [if_pos hm] at h
      exact loopVal_truthy h
    · rw [if_neg hm] at h
      cases h
  · intro ar defaults k v har hd
    rw [aGet_defaultsPass, har]
    exact hd

/-- C10 witness: concrete instances of the three parts - a falsy usage value
for `scope` falls through to the default `openid`; the value the loop placed
for `k` is truthy; the falsy default for `max_age` is injected verbatim. -/
theorem c10_falsy_handling_witness :
    aGet (gather_request_args ⟨none, [("scope", PyVal.str "openid")]⟩ ["scope"]
        [("scope", PyVal.str "")] [] []) "scope"
      = aGet [("scope", PyVal.str "openid")] "scope" ∧
    truthy (PyVal.str "x") = true ∧
    aGet (defaultsPass [] [("max_age", PyVal.str "")]) "max_age"
      = some (PyVal.str "") := by
  refine ⟨?_, ?_, ?_⟩
  · exact c10_falsy_handling.1 ⟨none, [("scope", PyVal.str "openid")]⟩ ["scope"]
      [("scope", PyVal.str "")] [] [] "scope" (PyVal.str "") rfl rfl rfl rfl
  · exact c10_falsy_handling.2.1 [("k", PyVal.str "x")] [] [] ["k"] "k"
      (PyVal.str "x") rfl rfl
  · exact c10_falsy_handling.2.2 [] [("max_age", PyVal.str "")] "max_age"
      (PyVal.str "") rfl rfl

/-! ### Claim C3 - authentication method resolution. -/

/-- C3: with a non-empty method identifier, a service-local registration is
invoked and shadows any entity-wide one; an identifier registered only
entity-wide invokes the entity-wide strategy; one registered in neither
raises the unsupported-authentication-method error naming the identifier;
an empty identifier returns the given `http_args` unchanged. -/
theorem c3_authn_resolution (svcM ctxM : List (String × AuthnMethod)) (request : Dict)
    (am : String) (http_args : Option Dict) :
    (∀ f, am ≠ "" → aGet svcM am = some f →
        init_authentication_method svcM ctxM request am http_args
          = .ok (f.construct request (http_args.getD []))) ∧
    (∀ g, am ≠ "" → aGet svcM am = none → aGet ctxM am = some g →
        init_authentication_method svcM ctxM request am http_args
          = .ok (g.construct request (http_args.getD []))) ∧
    (am ≠ "" → aGet svcM am = none → aGet ctxM am = none →
        init_authentication_method svcM ctxM request am http_args
          = .error (.unsupported ("Unknown client authentication method: " ++ am))) ∧
    (am = "" →
        init_authentication_method svcM ctxM request am http_args
          = .ok (http_args.getD [])) := by
  refine ⟨?_, ?_, ?_, ?_⟩
  · intro f hne hf
    have hemp : svcM.isEmpty = false := aGet_isEmpty hf
    simp [init_authentication_method, hne, hemp, hf]
  · intro g hne hs hc
    by_cases hemp : svcM.isEmpty <;>
      simp [init_authentication_method, hne, hemp, hs, hc]
  · intro hne hs hc
    by_cases hemp : svcM.isEmpty <;>
      simp [init_authentication_method, hne, hemp, hs, hc]
  · intro he
    simp [init_authentication_method, he]

/-- C3 witness: the service-local strategy shadows the entity-wide one of the
same identifier; entity-wide is used when only it is registered; an unknown
identifier raises; an empty identifier passes `http_args` through. -/
theorem c3_authn_resolution_witness :
    init_authentication_method [("m", amLocal)] [("m", amShared)] [] "m" none
      = .ok [("auth", PyVal.str "service-local")] ∧
    init_authentication_method [] [("m", amShared)] [] "m" none
      = .ok [("auth", PyVal.str "entity-wide")] ∧
    init_authentication_method [] [] [] "m" none
      = .error (.unsupported "Unknown client authentication method: m") ∧
    init_authentication_method [("m", amLocal)] [] [] "" (some [("h", PyVal.str "v")])
      = .ok [("h", PyVal.str "v")] := by
  refine ⟨?_, ?_, ?_, ?_⟩
  · exact (c3_authn_resolution [("m", amLocal)] [("m", amShared)] [] "m" none).1
      amLocal (by decide) rfl
  · exact (c3_authn_resolution [] [("m", amShared)] [] "m" none).2.1
      amShared (by decide) rfl rfl
  · exact (c3_authn_resolution [] [] [] "m" none).2.2.1 (by decide) rfl rfl
  · exact (c3_authn_resolution [("m", amLocal)] [] []
      "" (some [("h", PyVal.str "v")])).2.2.2 rfl

/-! ### Claim C4 - body encoding and Content-Type selection. -/

/-- C4: in `get_request_parameters`, whether a body is produced and which
Content-Type is set is a function of the effective HTTP method and request
body type alone: POST with `urlencoded` yields a form-encoded body and the
urlencoded content type, POST with one of `jws`/`jwe`/`jose` the JOSE content
type, POST with anything else the JSON content type; a non-POST method yields
no body, leaves the upstream headers untouched and so sets no Content-Type. -/
theorem c4_body_encoding (svc : HttpSvc) (env : HttpEnv) (m0 r0 : String) :
    ((if m0 = "" then svc.http_method else m0) = "POST" →
        ((if r0 = "" then svc.request_body_type else r0) = "urlencoded" →
            (get_request_parameters svc env m0 r0).body = some (env.body URL_ENCODED) ∧
            infoContentType (get_request_parameters svc env m0 r0)
              = some (.str URL_ENCODED)) ∧
        (((if r0 = "" then svc.request_body_type else r0) = "jws" ∨
          (if r0 = "" then svc.request_body_type else r0) = "jwe" ∨
          (if r0 = "" then svc.request_body_type else r0) = "jose") →
            (get_request_parameters svc env m0 r0).body = some (env.body JOSE_ENCODED) ∧
            infoContentType (get_request_parameters svc env m0 r0)
              = some (.str JOSE_ENCODED)) ∧
        ((if r0 = "" then svc.request_body_type else r0) ≠ "urlencoded" →
          ¬((if r0 = "" then svc.request_body_type else r0) = "jws" ∨
            (if r0 = "" then svc.request_body_type else r0) = "jwe" ∨
            (if r0 = "" then svc.request_body_type else r0) = "jose") →
            (get_request_parameters svc env m0 r0).body = some (env.body JSON_ENCODED) ∧
            infoContentType (get_request_parameters svc env m0 r0)
              = some (.str JSON_ENCODED))) ∧
    ((if m0 = "" then svc.http_method else m0) ≠ "POST" →
        (get_request_parameters svc env m0 r0).body = none ∧
        (get_request_parameters svc env m0 r0).headers
          = (if env.headers.isEmpty then none else some env.headers) ∧
        (aGet env.headers "Content-Type" = none →
          infoContentType (get_request_parameters svc env m0 r0) = none)) := by
  constructor
  · intro hm
    refine ⟨?_, ?_, ?_⟩
    · intro hr
      have hct : contentTypeFor (if r0 = "" then svc.request_body_type else r0)
          = URL_ENCODED := by simp [contentTypeFor, hr]
      constructor
      · simp [get_request_parameters, hm, hct]
      · simp [get_request_parameters, infoContentType, hm, hct, aSet_isEmpty, aGet_aSet]
    · intro hr
      have hct : contentTypeFor (if r0 = "" then svc.request_body_type else r0)
          = JOSE_ENCODED := by
        rcases hr with h | h | h <;> simp [contentTypeFor, h]
      constructor
      · simp [get_request_parameters, hm, hct]
      · simp [get_request_parameters, infoContentType, hm, hct, aSet_isEmpty, aGet_aSet]
    · intro hr1 hr2
      have hct : contentTypeFor (if r0 = "" then svc.request_body_type else r0)
          = JSON_ENCODED := by simp [contentTypeFor, hr1, hr2]
      constructor
      · simp [get_request_parameters, hm, hct]
      · simp [get_request_parameters, infoContentType, hm, hct, aSet_isEmpty, aGet_aSet]
  · intro hm
    refine ⟨?_, ?_, ?_⟩
    · simp [get_request_parameters, hm]
    · simp [get_request_parameters, hm]
    · intro hh
      cases hhe : env.headers.isEmpty <;>
        simp [get_request_parameters, infoContentType, hm, hhe, hh]

/-- C4 witness: a POST with urlencoded body type produces the form body and
Content-Type; a HEAD request (body type defaulted) produces neither body nor
Content-Type. -/
theorem c4_body_encoding_witness :
    (get_request_parameters httpSvcFix httpEnvFix "POST" "urlencoded").body
      = some (httpEnvFix.body URL_ENCODED) ∧
    infoContentType (get_request_parameters httpSvcFix httpEnvFix "POST" "urlencoded")
      = some (.str URL_ENCODED) ∧
    (get_request_parameters httpSvcFix httpEnvFix "HEAD" "").body = none ∧
    infoContentType (get_request_parameters httpSvcFix httpEnvFix "HEAD" "") = none := by
  refine ⟨?_, ?_, ?_, ?_⟩
  · exact (((c4_body_encoding httpSvcFix httpEnvFix "POST" "urlencoded").1 rfl).1 rfl).1
  · exact (((c4_body_encoding httpSvcFix httpEnvFix "POST" "urlencoded").1 rfl).1 rfl).2
  · exact ((c4_body_encoding httpSvcFix httpEnvFix "HEAD" "").2 (by decide)).1
  · exact ((c4_body_encoding httpSvcFix httpEnvFix "HEAD" "").2 (by decide)).2.2 rfl

/-! ### Response-pipeline lemmas. -/

theorem verify_notin_try (env : ParseEnv) (svc : ParseSvc) (info : PyVal) (sformat : String) :
    Ev.verify ∉ (do_response_try env svc info sformat).1 := by
  unfold do_response_try
  cases h : deserializeCall env svc info sformat with
  | ok claims => simp
  | error e =>
    by_cases hj : sformat = "json"
    · cases h2 : deserializeCall env svc info "jwt" <;> simp [hj, h2]
    · simp [hj]

theorem verify_notin_do_response (env : ParseEnv) (svc : ParseSvc) (info : PyVal)
    (sformat : String) : Ev.verify ∉ (do_response env svc info sformat).1 := by
  cases info with
  | list l => simp [do_response]
  | str s => exact verify_notin_try env svc (.str s) sformat
  | dict d => exact verify_notin_try env svc (.dict d) sformat
  | noneV => exact verify_notin_try env svc .noneV sformat

theorem verify_notin_respNoneBody (env : ParseEnv) (svc : ParseSvc) (sformat : String)
    (info : PyVal) : Ev.verify ∉ (respNoneBody env svc sformat info).1 := by
  unfold respNoneBody
  by_cases ht : truthy info
  · by_cases hs : sformat = "text"
    · simp [ht, hs]
    · simp only [ht, hs, Bool.not_true, Bool.false_eq_true, if_false, if_neg hs]
      rcases hdr : do_response env svc info sformat with ⟨t, r⟩
      have h := verify_notin_do_response env svc info sformat
      rw [hdr] at h
      cases r <;> simpa using h
  · simp [ht]

theorem verify_notin_respNone (env : ParseEnv) (svc : ParseSvc) (sformat : String)
    (info : PyVal) : Ev.verify ∉ (respNonePhase env svc sformat info).1 := by
  cases info with
  | list l =>
    cases l with
    | nil =>
      show Ev.verify ∉ ((if svc.responseClsIsList then
          (([] : List Ev), Except.ok (Stage2.finished (.list [])))
        else ([], .error (.responseError "Missing or faulty response"))) :
          List Ev × Except PyErr Stage2).1
      by_cases h : svc.responseClsIsList <;> simp [h]
    | cons hd tl => exact verify_notin_respNoneBody env svc sformat (.list (hd :: tl))
  | str s => exact verify_notin_respNoneBody env svc sformat (.str s)
  | dict d => exact verify_notin_respNoneBody env svc sformat (.dict d)
  | noneV => exact verify_notin_respNoneBody env svc sformat .noneV

theorem verify_notin_initialResp (env : ParseEnv) (svc : ParseSvc) (sformat : String)
    (info : PyVal) (resp0 : Option Resp) :
    Ev.verify ∉ (initialResp env svc sformat info resp0).1 := by
  cases resp0 with
  | some r => simp [initialResp]
  | none => exact verify_notin_respNone env svc sformat info

theorem is_error_truthy {r : Resp} (h : is_error_message r = true) :
    respTruthy r = true := by
  cases r with
  | msg claims jws jwe =>
    cases claims with
    | nil => simp [is_error_message, aGet] at h
    | cons hd tl => rfl
  | raw v =>
    cases v with
    | str s => simp [is_error_message] at h
    | dict d => simp [is_error_message] at h
    | noneV => simp [is_error_message] at h
    | list l =>
      cases l with
      | nil => simp [is_error_message] at h
      | cons hd tl => rfl

theorem parse_text (env : ParseEnv) (svc : ParseSvc) (info : PyVal) :
    parse_response env svc info "text"
      = (match info with
         | .list [] =>
             if svc.responseClsIsList then ([], .ok (.raw (.list [])))
             else ([], .error (.responseError "Missing or faulty response"))
         | v =>
             if !truthy v then ([], .error (.responseError "Missing or faulty response"))
             else ([], .ok (.raw v))) := by
  have hdec : decodePhase env svc info "text" = .ok ("text", info, none, none, none) := rfl
  show ((match initialResp env svc "text" info none with
        | (t, .error e) => (t, Except.error e)
        | (t, .ok (.finished v)) => (t, Except.ok (Resp.raw v))
        | (t, .ok (.proceed r)) => verifyPhase env "text" none none t r) :
        List Ev × Except PyErr Resp) = _
  have hbody : ∀ v : PyVal,
      ((match respNoneBody env svc "text" v with
       | (t, .error e) => (t, Except.error e)
       | (t, .ok (.finished w)) => (t, Except.ok (Resp.raw w))
       | (t, .ok (.proceed r)) => verifyPhase env "text" none none t r) :
       List Ev × Except PyErr Resp)
      = (if !truthy v then (([] : List Ev), Except.error (PyErr.responseError "Missing or faulty response"))
         else ([], .ok (.raw v))) := by
    intro v
    by_cases ht : truthy v
    · simp [respNoneBody, ht, verifyPhase, finalCheck, respTruthy]
    · simp [respNoneBody, ht]
  cases info with
  | list l =>
    cases l with
    | nil =>
      show ((match (if svc.responseClsIsList then
            (([] : List Ev), Except.ok (Stage2.finished (.list [])))
          else ([], .error (.responseError "Missing or faulty response"))) with
          | (t, .error e) => (t, Except.error e)
          | (t, .ok (.finished w)) => (t, Except.ok (Resp.raw w))
          | (t, .ok (.proceed r)) => verifyPhase env "text" none none t r) :
          List Ev × Except PyErr Resp) = _
      by_cases h : svc.responseClsIsList <;> simp [h]
    | cons hd tl => exact hbody (.list (hd :: tl))
  | str s => exact hbody (.str s)
  | dict d => exact hbody (.dict d)
  | noneV => exact hbody .noneV

/-! ### Claim C2 - verification is skipped for error-shaped responses and for
the text format. -/

/-- C2 (amended): whenever the decoded result of `parse_response` is
recognized as error-shaped, the verify capability is never invoked and the
result is returned (only logged); for the plain-text format the verify
capability is never invoked either, and a truthy text payload is returned
unchanged, while a falsy one raises `ResponseError` (Missing or faulty
response) instead of being returned. -/
theorem c2_skip_verify (env : ParseEnv) (svc : ParseSvc) :
    (∀ (info0 : PyVal) (sformat0 sf : String) (info : PyVal) (jws jwe : Option PyVal)
        (resp0 : Option Resp) (t : List Ev) (r : Resp),
        decodePhase env svc info0 sformat0 = .ok (sf, info, jws, jwe, resp0) →
        initialResp env svc sf info resp0 = (t, .ok (.proceed r)) →
        is_error_message r = true →
        parse_response env svc info0 sformat0 = (t, .ok r) ∧ Ev.verify ∉ t) ∧
    (∀ info : PyVal,
        Ev.verify ∉ (parse_response env svc info "text").1 ∧
        (truthy info = true → parse_response env svc info "text" = ([], .ok (.raw info))) ∧
        (truthy info = false → svc.responseClsIsList = false →
          parse_response env svc info "text"
            = ([], .error (.responseError "Missing or faulty response")))) := by
  constructor
  · intro info0 sformat0 sf info jws jwe resp0 t r hdec hinit herr
    have hver : Ev.verify ∉ t := by
      have h := verify_notin_initialResp env svc sf info resp0
      rw [hinit] at h
      exact h
    refine ⟨?_, hver⟩
    unfold parse_response
    rw [hdec]
    show ((match initialResp env svc sf info resp0 with
          | (t, .error e) => (t, Except.error e)
          | (t, .ok (.finished v)) => (t, Except.ok (Resp.raw v))
          | (t, .ok (.proceed r)) => verifyPhase env sf jws jwe t r) :
          List Ev × Except PyErr Resp) = _
    rw [hinit]
    show verifyPhase env sf jws jwe t r = _
    by_cases hsf : sf = "text" <;>
      simp [verifyPhase, hsf, herr, finalCheck, is_error_truthy herr]
  · intro info
    refine ⟨?_, ?_, ?_⟩
    · rw [parse_text]
      cases info with
      | list l =>
        cases l with
        | nil => by_cases h : svc.responseClsIsList <;> simp [h]
        | cons hd tl => by_cases ht : truthy (PyVal.list (hd :: tl)) <;> simp [ht]
      | str s => by_cases ht : truthy (PyVal.str s) <;> simp [ht]
      | dict d => by_cases ht : truthy (PyVal.dict d) <;> simp [ht]
      | noneV => simp [truthy]
    · intro ht
      rw [parse_text]
      cases info with
      | list l =>
        cases l with
        | nil => simp [truthy] at ht
        | cons hd tl => simp [ht]
      | str s => simp [ht]
      | dict d => simp [ht]
      | noneV => simp [truthy] at ht
    · intro ht hcls
      rw [parse_text]
      cases info with
      | list l =>
        cases l with
        | nil => simp [hcls]
        | cons hd tl => simp [truthy] at ht
      | str s => simp [ht]
      | dict d => simp [ht]
      | noneV => simp [ht]

/-- C2 counterexample: the claim as stated is false for the text passthrough -
an empty text payload is not returned; `parse_response` raises the
missing-or-faulty-response error instead (the verify capability is still not
invoked). -/
theorem c2_counterexample :
    parse_response baseEnv ⟨"json", false⟩ (.str "") "text"
      = ([], .error (.responseError "Missing or faulty response")) := rfl

/-- C2 witness: an error-shaped JSON response is returned without any verify
event in the trace, and a truthy text payload passes through unchanged. -/
theorem c2_skip_verify_witness :
    parse_response errorShapedEnv ⟨"json", false⟩ (.str "payload") "json"
      = ([Ev.deserialize "dict"],
         .ok (.msg [("error", PyVal.str "access_denied")] none none)) ∧
    parse_response errorShapedEnv ⟨"json", false⟩ (.str "hi") "text"
      = ([], .ok (.raw (.str "hi"))) := by
  constructor
  · exact ((c2_skip_verify errorShapedEnv ⟨"json", false⟩).1 (.str "payload") "json" "dict"
      (.dict [("error", PyVal.str "access_denied")]) none none none
      [Ev.deserialize "dict"] (.msg [("error", PyVal.str "access_denied")] none none)
      rfl rfl rfl).1
  · exact ((c2_skip_verify errorShapedEnv ⟨"json", false⟩).2 (.str "hi")).2.1 rfl

/-! ### Claim C5 - empty response body with declared format `json`. -/

/-- C5 (amended): with declared format `json`, a response body that the JSON
parser rejects (the empty string among them) makes `parse_response` propagate
the JSON decoding error - not the MissingOrFaultyResponse `ResponseError` -
because `json.loads` runs before the falsy-payload check; a body that parses
to a falsy JSON value does raise the MissingOrFaultyResponse error. -/
theorem c5_empty_json (env : ParseEnv) (svc : ParseSvc) (info : PyVal) :
    (∀ e, env.jsonLoads info = .error e →
        parse_response env svc info "json" = ([], .error e)) ∧
    (∀ v, env.jsonLoads info = .ok v → truthy v = false → svc.responseClsIsList = false →
        parse_response env svc info "json"
          = ([], .error (.responseError "Missing or faulty response"))) := by
  constructor
  · intro e he
    have hdec : decodePhase env svc info "json"
        = (match env.jsonLoads info with
           | .ok v => .ok ("dict", v, none, none, none)
           | .error e => .error e) := rfl
    unfold parse_response
    rw [hdec, he]
  · intro v hv htr hcls
    have hdec : decodePhase env svc info "json"
        = (match env.jsonLoads info with
           | .ok v => .ok ("dict", v, none, none, none)
           | .error e => .error e) := rfl
    unfold parse_response
    rw [hdec, hv]
    show ((match initialResp env svc "dict" v none with
          | (t, .error e) => (t, Except.error e)
          | (t, .ok (.finished w)) => (t, Except.ok (Resp.raw w))
          | (t, .ok (.proceed r)) => verifyPhase env "dict" none none t r) :
          List Ev × Except PyErr Resp) = _
    cases v with
    | list l =>
      cases l with
      | nil => simp [initialResp, respNonePhase, hcls]
      | cons hd tl => simp [truthy] at htr
    | str s => simp [initialResp, respNonePhase, respNoneBody, htr]
    | dict d => simp [initialResp, respNonePhase, respNoneBody, htr]
    | noneV => simp [initialResp, respNonePhase, respNoneBody, htr, truthy]

/-- C5 counterexample: the claim as stated is false - the empty body under
declared format `json` raises the JSON decoder's error, which is not the
MissingOrFaultyResponse `ResponseError`. -/
theorem c5_counterexample :
    parse_response baseEnv ⟨"json", false⟩ (.str "") "json" = ([], .error .jsonError) ∧
    PyErr.jsonError ≠ PyErr.responseError "Missing or faulty response" :=
  ⟨rfl, by decide⟩

/-- C5 witness: the empty string propagates the JSON error; the payload
`null` parses to the falsy `None` and raises MissingOrFaultyResponse. -/
theorem c5_empty_json_witness :
    parse_response baseEnv ⟨"json", false⟩ (.str "") "json" = ([], .error .jsonError) ∧
    parse_response baseEnv ⟨"json", false⟩ (.str "null") "json"
      = ([], .error (.responseError "Missing or faulty response")) := by
  constructor
  · exact (c5_empty_json baseEnv ⟨"json", false⟩ (.str "")).1 .jsonError rfl
  · exact (c5_empty_json baseEnv ⟨"json", false⟩ (.str "null")).2 .noneV rfl rfl rfl

/-! ### Claim C6 - no jwt retry for a response declared `json`. -/

/-- C6: evaluating the code at a failing input - a response declared `json`
whose payload parses as JSON but whose first schema deserialization fails.
The format was rewritten to `dict` before `_do_response` ran, so its retry
guard `sformat == "json"` is false: exactly one deserialization attempt (under
`dict`) happens, no `jwt` attempt follows, and the `ValueError` naming `dict`
is raised - contradicting the claimed one-retry-as-jwt behaviour. -/
theorem c6_no_retry_eval :
    parse_response mistaggedEnv ⟨"json", false⟩ (.str "mistagged") "json"
      = ([.deserialize "dict"], .error (.valueError "Incorrect message type: dict")) ∧
    Ev.deserialize "jwt" ∉ [Ev.deserialize "dict"] :=
  ⟨rfl, by decide⟩

/-! ### Claim C7 - `jose` decoding of a signed token matches `jws`/`jwt`
decoding. -/

/-- C7: for a compact token string that the JWS probe recognizes and that
unwraps to a claims dict, `parse_response` under declared format `jose`
returns exactly what it returns under `jws`, which in turn equals `jwt` -
same parsed claims, same preserved raw token, same verification outcome. -/
theorem c7_jose_matches_jws (env : ParseEnv) (svc : ParseSvc) (s : String)
    (d : List (String × PyVal))
    (hjws : env.jwsFactory (.str s) = .ok true)
    (hun : env.doJwt (.str s) = .ok (.dict d)) :
    parse_response env svc (.str s) "jose" = parse_response env svc (.str s) "jws" ∧
    parse_response env svc (.str s) "jws" = parse_response env svc (.str s) "jwt" := by
  have h1 : decodePhase env svc (.str s) "jose"
      = .ok ("dict", .dict d, some (.str s), none, none) := by
    have hj : joseDecode env (.str s) = .dict d := by
      unfold joseDecode
      rw [hjws, hun]
    show (match (if truthy (joseDecode env (.str s)) && isStr (joseDecode env (.str s)) then
            env.jsonLoads (joseDecode env (.str s))
          else .ok (joseDecode env (.str s))) with
          | .ok info2 => Except.ok ("dict", info2, some (PyVal.str s), none, none)
          | .error e => Except.error e) = _
    rw [hj]
    simp [isStr]
  have h2 : decodePhase env svc (.str s) "jws"
      = .ok ("dict", .dict d, some (.str s), none, none) := by
    show (match env.doJwt (.str s) with
          | .ok v => Except.ok ("dict", v, some (PyVal.str s), none, none)
          | .error e => Except.error e) = _
    rw [hun]
  have h3 : decodePhase env svc (.str s) "jwt"
      = .ok ("dict", .dict d, some (.str s), none, none) := by
    show (match env.doJwt (.str s) with
          | .ok v => Except.ok ("dict", v, some (PyVal.str s), none, none)
          | .error e => Except.error e) = _
    rw [hun]
  constructor
  · unfold parse_response
    rw [h1, h2]
  · unfold parse_response
    rw [h2, h3]

/-- C7 witness: a concrete environment where the probe and unwrap succeed -
`jose` decoding equals `jws` decoding of the same string. -/
theorem c7_jose_matches_jws_witness :
    parse_response jwsEnv ⟨"json", false⟩ (.str "token") "jose"
      = parse_response jwsEnv ⟨"json", false⟩ (.str "token") "jws" :=
  (c7_jose_matches_jws jwsEnv ⟨"json", false⟩ "token" [("sub", PyVal.str "x")] rfl rfl).1

/-! ### Claim C9 - empty list payload with a list-typed response schema. -/

/-- C9: when the response schema is the builtin `list` and the decoded JSON
payload is the empty list, `parse_response` returns the empty list with an
empty event trace - no schema deserialization, no verification, no raise. -/
theorem c9_empty_list (env : ParseEnv) (svc : ParseSvc) (info : PyVal)
    (hcls : svc.responseClsIsList = true)
    (hload : env.jsonLoads info = .ok (.list [])) :
    parse_response env svc info "json" = ([], .ok (.raw (.list []))) := by
  have hdec : decodePhase env svc info "json"
      = (match env.jsonLoads info with
         | .ok v => .ok ("dict", v, none, none, none)
         | .error e => .error e) := rfl
  unfold parse_response
  rw [hdec, hload]
  simp [initialResp, respNonePhase, hcls]

/-- C9 witness: the payload `[]` under a list-typed schema comes back as the
empty list with no deserialization and no verification. -/
theorem c9_empty_list_witness :
    parse_response baseEnv ⟨"json", true⟩ (.str "[]") "json"
      = ([], .ok (.raw (.list []))) :=
  c9_empty_list baseEnv ⟨"json", true⟩ (.str "[]") rfl rfl

/-! ### Claim C8 - the pre-construction accumulator. -/

/-- C8 counterexample: the claim as stated is false - with two hooks that
both return accumulator contributions, the accumulator surfacing downstream
is empty: it does not contain the last hook's returned contribution. -/
theorem c8_counterexample :
    construct_post_args [hookRetA, hookRetB] [] none = [] ∧
    hookRetB.ret [] [] = [("b", PyVal.str "2")] ∧
    ([] : Dict) ≠ [("b", PyVal.str "2")] :=
  ⟨rfl, rfl, fun h => List.noConfusion h⟩

/-- C8 (amended): the accumulator `do_pre_construct` hands downstream is
unaffected by any hook's *returned* accumulator contribution (the merge is
commented out in the source, so all returned contributions - the last hook's
included - are discarded): two hook chains that agree on their request-args
transformations and their in-place accumulator effects, but return arbitrary
different contributions, produce identical results. -/
theorem c8_ret_irrelevant (request_args : Dict) (hs hsB : List PreHook)
    (h : List.Forall₂ (fun a b => a.args = b.args ∧ a.shared = b.shared) hs hsB) :
    do_pre_construct hs request_args = do_pre_construct hsB request_args := by
  have main : ∀ (ra pa : Dict), preConstructFold hs ra pa = preConstructFold hsB ra pa := by
    induction h with
    | nil => intro ra pa; rfl
    | @cons a b l1 l2 hab htl ih =>
      intro ra pa
      show preConstructFold l1 (a.args ra pa) (a.shared ra pa)
          = preConstructFold l2 (b.args ra pa) (b.shared ra pa)
      rw [hab.1, hab.2]
      exact ih _ _
  exact main request_args []

/-- C8 witness: changing only a hook's returned contribution leaves the
`do_pre_construct` result unchanged. -/
theorem c8_ret_irrelevant_witness :
    do_pre_construct [hookRetA] [] = do_pre_construct [hookRetA2] [] :=
  c8_ret_irrelevant [] [hookRetA] [hookRetA2]
    (List.Forall₂.cons ⟨rfl, rfl⟩ List.Forall₂.nil)

end IdpyOidc
